import Mathlib

/-!
Shallow embedding of the location-driven data refresh controller of the
weather-map component (src/unnamed/part_000, the `WeatherMap` React
component).  React `useState`/`useRef` cells become fields of an explicit
state record; each handler becomes a state transformer.  Network calls are
modelled by oracles: a `NetworkOutcome` record carries, for one fetch
cycle, the result of the current-conditions call, the forecast call and
the one-call (alerts) request; the geocoder response is an
`Option (List GeoResult)`.  `none` at the outer level stands for a
transport failure (non-ok HTTP status or a thrown error), matching the
`throw` / `catch` structure of the source.  Each transformer additionally
returns a `Bool` recording whether it initiated a fetch cycle (i.e. the
body of `fetchWeatherData` past the loading guard actually ran), so that
"number of fetch cycles triggered" is expressible.
-/

/-- The `Location` interface (part_000 lines 26-30): `lat`, `lng`, optional `name`.
Coordinates are JS numbers; they are embedded as rationals. -/
structure Location where
  lat : Rat
  lng : Rat
  name : Option String
deriving DecidableEq, Repr

/-- The `main` block shared by current weather and forecast entries
(part_000 lines 33-38 and 58-63). -/
structure WeatherMain where
  temp : Rat
  feels_like : Rat
  humidity : Rat
  pressure : Rat
deriving DecidableEq, Repr

/-- One element of the `weather` array (part_000 lines 39-44). -/
structure WeatherCondition where
  id : Int
  main : String
  description : String
  icon : String
deriving DecidableEq, Repr

/-- The `wind` block (part_000 lines 45-48). -/
structure Wind where
  speed : Rat
  deg : Rat
deriving DecidableEq, Repr

/-- The `sys` block of the current-conditions payload (part_000 lines 50-52). -/
structure Sys where
  country : String
deriving DecidableEq, Repr

/-- The `WeatherData` interface (part_000 lines 32-53): the current-conditions
payload (the spec's WeatherSnapshot). -/
structure WeatherData where
  main : WeatherMain
  weather : List WeatherCondition
  wind : Wind
  name : String
  sys : Sys
deriving DecidableEq, Repr

/-- One entry of the forecast `list` (part_000 lines 56-75). -/
structure ForecastEntry where
  dt : Int
  main : WeatherMain
  weather : List WeatherCondition
  wind : Wind
  dt_txt : String
deriving DecidableEq, Repr

/-- The `city` block of the forecast payload (part_000 lines 76-79). -/
structure City where
  name : String
  country : String
deriving DecidableEq, Repr

/-- The `ForecastData` interface (part_000 lines 55-80): the forecast payload
(the spec's ForecastSeries). -/
structure ForecastData where
  list : List ForecastEntry
  city : City
deriving DecidableEq, Repr

/-- The `Alert` interface (part_000 lines 82-89); `end` is a Lean keyword, hence
the guillemets. -/
structure Alert where
  sender_name : String
  event : String
  start : Int
  «end» : Int
  description : String
  tags : List String
deriving DecidableEq, Repr

/-- The controller state: every `useState` cell and every `useRef` cell of
the `WeatherMap` component (part_000 lines 92-106).  `Option _ := none`
models a `null` initial value; `locationKeyRef` holds the dedup key (the
source stores it as the string `lat.toFixed(4) + "," + lng.toFixed(4)`;
since `toFixed(4)` output is determined by, and determines, the rounded
value, string equality coincides with equality of the rounded pair, which
is what is stored here). -/
structure WeatherMapState where
  selectedLocation : Option Location
  searchedLocation : Option Location
  weatherData : Option WeatherData
  forecastData : Option ForecastData
  alertsData : Option (List Alert)
  loading : Bool
  error : Option String
  isSearching : Bool
  searchError : Option String
  lastUpdated : Option Int
  locationKeyRef : Option (Int × Int)
  currentLocationRef : Option Location
  dataFetchedRef : Bool
deriving DecidableEq, Repr

/-- The state at component initialization (part_000 lines 92-106): all
`useState(null)` / `useRef(null)` cells are `none`, `loading` and
`isSearching` start `false`, `dataFetchedRef` starts `false`. -/
def initialState : WeatherMapState where
  selectedLocation := none
  searchedLocation := none
  weatherData := none
  forecastData := none
  alertsData := none
  loading := false
  error := none
  isSearching := false
  searchError := none
  lastUpdated := none
  locationKeyRef := none
  currentLocationRef := none
  dataFetchedRef := false

/-- JS `x.toFixed(4)` read back as a scaled integer: rounding to 4 decimal
places, i.e. the nearest multiple of 1/10000 (half rounded up). -/
def toFixed4 (x : Rat) : Int := ⌊x * 10000 + 1 / 2⌋

/-- The dedup key of part_000 line 183:
`` `${location.lat.toFixed(4)},${location.lng.toFixed(4)}` ``, embedded as
the pair of rounded scaled coordinates (see `WeatherMapState.locationKeyRef`). -/
def locationKey (location : Location) : Int × Int :=
  (toFixed4 location.lat, toFixed4 location.lng)

/-- Outcome of the one-call (alerts) request (part_000 lines 147-157).
Unlike the current/forecast calls — where a non-ok status and a thrown
fetch both end up in the same `catch` via the explicit `throw` — the
alerts request distinguishes THREE behaviors in the source: `ok` is a
2xx response with parsed body, carrying the `alerts` field when present
(`none` = field absent/undefined); `notOk` is a non-ok status, which
takes the benign `else` branch (warn, `setAlertsData(null)`, and the
cycle continues); `thrown` is a rejected `fetch` or a throwing `json()`,
which jumps to the OUTER catch of `fetchWeatherData`. -/
inductive OneCallOutcome where
  | ok (alertsField : Option (List Alert))
  | notOk
  | thrown
deriving DecidableEq, Repr

/-- Outcomes of the three network calls of one fetch cycle
(part_000 lines 123, 135, 147).  `current = none` / `forecast = none`
model a non-ok response or a transport/parse error (all of these `throw`
into the same `catch` in the source, so one failure value is faithful);
the alerts request needs the three-way `OneCallOutcome`. -/
structure NetworkOutcome where
  current : Option WeatherData
  forecast : Option ForecastData
  oneCall : OneCallOutcome
deriving DecidableEq, Repr

/-- JS `oneCallData.alerts || null` (part_000 line 153): in JS an absent
(`undefined`) field falls through to `null`, while any array — including
the empty array, which is truthy — is kept.  Both `undefined` and `null`
are embedded as `none`, so this is the identity on `Option`. -/
def alertsOrNull (alertsField : Option (List Alert)) : Option (List Alert) :=
  match alertsField with
  | none => none
  | some l => some l

/-- The body of `fetchWeatherData` past the loading guard
(part_000 lines 119-176): assumes `loading` has been set and `error`
cleared by `fetchStart`.  A failed current fetch throws before any state
write; the current payload is stored (line 132) BEFORE the forecast is
requested, so a failed forecast fetch still leaves the new current data
behind; a non-ok one-call response stores `none` (line 156) and is
non-fatal; `lastUpdated` and the display-name reconciliation
(lines 159-170) run only when current and forecast both succeeded AND
the alerts request did not throw — a THROWN alerts fetch (rejected
transport or throwing `json()`) jumps to the outer catch, so the error
message is set while `alertsData`, `lastUpdated` and the reconciliation
are all skipped, even though the current and forecast payloads were
already stored; the `finally` clause (line 175) clears `loading` on
every path. -/
def fetchFinish (s : WeatherMapState) (location : Location)
    (net : NetworkOutcome) (now : Int) : WeatherMapState :=
  match net.current with
  | none =>
      { s with error := some "Failed to fetch weather data. Please try again later.",
               loading := false }
  | some currentData =>
      let s1 := { s with weatherData := some currentData }
      match net.forecast with
      | none =>
          { s1 with error := some "Failed to fetch weather data. Please try again later.",
                    loading := false }
      | some fd =>
          let s2 := { s1 with forecastData := some fd }
          let afterAlerts := fun (s3 : WeatherMapState) =>
            let s4 := { s3 with lastUpdated := some now }
            let s5 :=
              { s4 with selectedLocation :=
                  match s4.selectedLocation with
                  | some prevLocation =>
                      if prevLocation.lat = location.lat ∧ prevLocation.lng = location.lng then
                        some { prevLocation with name := some currentData.name }
                      else
                        some prevLocation
                  | none => none }
            { s5 with loading := false }
          match net.oneCall with
          | OneCallOutcome.ok alertsField =>
              afterAlerts { s2 with alertsData := alertsOrNull alertsField }
          | OneCallOutcome.notOk =>
              afterAlerts { s2 with alertsData := none }
          | OneCallOutcome.thrown =>
              { s2 with error := some "Failed to fetch weather data. Please try again later.",
                        loading := false }

/-- The synchronous prefix of `fetchWeatherData` (part_000 lines 112-117):
the loading guard (`if (loading) return`), then `setLoading(true)` and
`setError(null)`.  The `Bool` is whether the guard was passed, i.e.
whether a fetch cycle was actually initiated. -/
def fetchStart (s : WeatherMapState) : WeatherMapState × Bool :=
  if s.loading then (s, false)
  else ({ s with loading := true, error := none }, true)

/-- Function `fetchWeatherData` (part_000 lines 112-177) run to completion: the
guard/prefix followed, when the guard passes, by the whole awaited body
under the outcomes in `net`. -/
def fetchWeatherData (s : WeatherMapState) (location : Location)
    (net : NetworkOutcome) (now : Int) : WeatherMapState × Bool :=
  let p := fetchStart s
  if p.2 then (fetchFinish p.1 location net now, true) else (p.1, false)

/-- Handler `handleLocationSelect` (part_000 lines 179-195), with the triggered
fetch cycle run to completion before the handler returns (adequate
whenever no other handler runs while the cycle is in flight; the
interleaved case is `handleLocationSelectStart`).  `currentLocationRef`
is written unconditionally (line 180); the fetch branch is taken exactly
when the dedup key differs from the stored one (line 186); both branches
write `selectedLocation` (lines 189, 193). -/
def handleLocationSelect (s : WeatherMapState) (location : Location)
    (net : NetworkOutcome) (now : Int) : WeatherMapState × Bool :=
  let s0 := { s with currentLocationRef := some location }
  let key := locationKey location
  if s0.locationKeyRef ≠ some key then
    let s1 := { s0 with locationKeyRef := some key, dataFetchedRef := false,
                        selectedLocation := some location }
    let p := fetchWeatherData s1 location net now
    ({ p.1 with dataFetchedRef := true }, p.2)
  else
    ({ s0 with selectedLocation := some location }, false)

/-- Handler `handleLocationSelect` as it executes when invoked WHILE a previous
fetch cycle is still awaiting its responses: only the synchronous part
runs — `fetchWeatherData` is entered but returns at its loading guard
(part_000 line 114), so only `fetchStart` of it is observed.  The `Bool`
is whether a new fetch cycle was initiated. -/
def handleLocationSelectStart (s : WeatherMapState) (location : Location) :
    WeatherMapState × Bool :=
  let s0 := { s with currentLocationRef := some location }
  let key := locationKey location
  if s0.locationKeyRef ≠ some key then
    let s1 := { s0 with locationKeyRef := some key, dataFetchedRef := false,
                        selectedLocation := some location }
    let p := fetchStart s1
    ({ p.1 with dataFetchedRef := true }, p.2)
  else
    ({ s0 with selectedLocation := some location }, false)

/-- Handler `handleRefresh` (part_000 lines 235-241): a no-op when no location was
ever stored, otherwise `fetchWeatherData` on `currentLocationRef` with no
dedup-key consultation. -/
def handleRefresh (s : WeatherMapState) (net : NetworkOutcome) (now : Int) :
    WeatherMapState × Bool :=
  match s.currentLocationRef with
  | some location =>
      let s1 := { s with dataFetchedRef := false }
      let p := fetchWeatherData s1 location net now
      ({ p.1 with dataFetchedRef := true }, p.2)
  | none => (s, false)

/-- One candidate of the geocoder response (part_000 lines 218-222).
`lat`/`lon` carry the numeric value `Number.parseFloat` extracts from the
candidate's coordinate strings; `display_name` is the full descriptive
address. -/
structure GeoResult where
  lat : Rat
  lon : Rat
  display_name : String
deriving DecidableEq, Repr

/-- Handler `handleSearch` (part_000 lines 197-233).  `geo = none` models a non-ok
response or transport/parse error (the `catch` path, line 229);
`some []` is the zero-candidate path (line 213); otherwise a `Location`
is built from the first candidate, its display name the first
comma-delimited segment of `display_name` (line 222), stored as the
searched location and passed to `handleLocationSelect`.  The `finally`
clause (line 231) clears `isSearching` on every path. -/
def handleSearch (s : WeatherMapState) (geo : Option (List GeoResult))
    (net : NetworkOutcome) (now : Int) : WeatherMapState × Bool :=
  let s0 := { s with isSearching := true, searchError := none }
  match geo with
  | none =>
      ({ s0 with searchError := some "Location search failed. Please try again later.",
                 isSearching := false }, false)
  | some data =>
      match data with
      | [] =>
          ({ s0 with searchError := some "Location not found. Please try another search.",
                     isSearching := false }, false)
      | result :: _ =>
          let newLocation : Location :=
            { lat := result.lat, lng := result.lon,
              name := some (List.headD (result.display_name.splitOn ",") "") }
          let s1 := { s0 with searchedLocation := some newLocation }
          let p := handleLocationSelect s1 newLocation net now
          ({ p.1 with isSearching := false }, p.2)

/-!  Helper lemmas and sample data. -/

/-- Evaluate `toFixed4` at a concrete rational via the floor bracketing. -/
theorem toFixed4_eq_of (x : Rat) (n : Int)
    (h : (n : Rat) ≤ x * 10000 + 1 / 2 ∧ x * 10000 + 1 / 2 < n + 1) : toFixed4 x = n := by
  rw [toFixed4, Int.floor_eq_iff]
  exact_mod_cast h

/-- The awaited body of a fetch cycle never touches the dedup key. -/
theorem fetchFinish_locationKeyRef (s : WeatherMapState) (loc : Location)
    (net : NetworkOutcome) (now : Int) :
    (fetchFinish s loc net now).locationKeyRef = s.locationKeyRef := by
  rcases net with ⟨c, f, o⟩
  cases c <;> cases f <;> cases o <;> rfl

/-- The awaited body of a fetch cycle never touches the location ref. -/
theorem fetchFinish_currentLocationRef (s : WeatherMapState) (loc : Location)
    (net : NetworkOutcome) (now : Int) :
    (fetchFinish s loc net now).currentLocationRef = s.currentLocationRef := by
  rcases net with ⟨c, f, o⟩
  cases c <;> cases f <;> cases o <;> rfl

/-- The awaited body of a fetch cycle never touches the searched location. -/
theorem fetchFinish_searchedLocation (s : WeatherMapState) (loc : Location)
    (net : NetworkOutcome) (now : Int) :
    (fetchFinish s loc net now).searchedLocation = s.searchedLocation := by
  rcases net with ⟨c, f, o⟩
  cases c <;> cases f <;> cases o <;> rfl

/-- Every run of the awaited fetch body ends with `loading = false`
(the `finally` clause of part_000 line 175). -/
theorem fetchFinish_loading (s : WeatherMapState) (loc : Location)
    (net : NetworkOutcome) (now : Int) :
    (fetchFinish s loc net now).loading = false := by
  rcases net with ⟨c, f, o⟩
  cases c <;> cases f <;> cases o <;> rfl

/-- Entering `fetchWeatherData` with the loading flag down: the guard is
passed and the whole cycle runs on the state with `loading` raised and
`error` cleared. -/
theorem fetchWeatherData_not_loading (s : WeatherMapState) (loc : Location)
    (net : NetworkOutcome) (now : Int) (hload : s.loading = false) :
    fetchWeatherData s loc net now =
      (fetchFinish { s with loading := true, error := none } loc net now, true) := by
  simp [fetchWeatherData, fetchStart, hload]

/-- Sample locations: `wL1` and `wL1'` agree at 4-decimal precision but are
distinct points; `wL2` has a different dedup key. -/
def wL1 : Location := { lat := 1, lng := 2, name := none }

def wL1' : Location := { lat := 1 + 1 / 100000, lng := 2, name := some "same spot" }

def wL2 : Location := { lat := 3, lng := 4, name := none }

def wWeather : WeatherData :=
  { main := { temp := 20, feels_like := 19, humidity := 50, pressure := 1013 },
    weather := [], wind := { speed := 3, deg := 90 }, name := "Paris", sys := { country := "FR" } }

def wWeather0 : WeatherData :=
  { main := { temp := 5, feels_like := 4, humidity := 80, pressure := 990 },
    weather := [], wind := { speed := 1, deg := 10 }, name := "Old", sys := { country := "GB" } }

def wForecast : ForecastData := { list := [], city := { name := "Paris", country := "FR" } }

def wForecast0 : ForecastData := { list := [], city := { name := "Old", country := "GB" } }

def wAlert : Alert :=
  { sender_name := "NWS", event := "Storm", start := 0, «end» := 1,
    description := "desc", tags := [] }

/-- All three calls succeed; the alerts field is present and empty. -/
def wNet : NetworkOutcome :=
  { current := some wWeather, forecast := some wForecast, oneCall := OneCallOutcome.ok (some []) }

theorem key_wL1_eq_wL1' : locationKey wL1 = locationKey wL1' := by
  simp only [locationKey, wL1, wL1', Prod.mk.injEq]
  rw [toFixed4_eq_of 1 10000 (by norm_num), toFixed4_eq_of (1 + 1 / 100000) 10000 (by norm_num)]
  simp

theorem key_wL1_ne_wL2 : locationKey wL1 ≠ locationKey wL2 := by
  simp only [locationKey, wL1, wL2, Prod.mk.injEq, ne_eq]
  rw [toFixed4_eq_of 1 10000 (by norm_num), toFixed4_eq_of 3 30000 (by norm_num)]
  simp

/-!  Claim theorems. -/

/-- C4: while `isLoading` is true, invoking the fetch routine is a no-op —
the state is returned unchanged and no fetch cycle is counted — and every
fetch cycle that does run ends with `isLoading` back at `false` (the
`finally` clause), whether its network calls succeed or fail. -/
theorem refresh_while_loading_noop_and_loading_cleared :
    (∀ (s : WeatherMapState) (loc : Location) (net : NetworkOutcome) (now : Int),
        s.loading = true → fetchWeatherData s loc net now = (s, false)) ∧
    (∀ (s : WeatherMapState) (loc : Location) (net : NetworkOutcome) (now : Int),
        (fetchFinish s loc net now).loading = false) := by
  constructor
  · intro s loc net now h
    simp [fetchWeatherData, fetchStart, h]
  · intro s loc net now
    exact fetchFinish_loading s loc net now

/-- Witness for C4 at a concrete loading state and a concrete cycle. -/
theorem refresh_while_loading_noop_and_loading_cleared_witness :
    fetchWeatherData { initialState with loading := true } wL1 wNet 0 =
      ({ initialState with loading := true }, false) ∧
    (fetchFinish initialState wL1 wNet 0).loading = false :=
  ⟨refresh_while_loading_noop_and_loading_cleared.1 _ wL1 wNet 0 rfl,
   refresh_while_loading_noop_and_loading_cleared.2 initialState wL1 wNet 0⟩

/-- C1: two selections whose coordinates agree at 4-decimal precision
trigger exactly one fetch cycle — the first fetches, the second is
deduplicated away — and the second selection still replaces the visible
selected location. -/
theorem select_same_key_one_fetch (s : WeatherMapState) (L1 L2 : Location)
    (net net' : NetworkOutcome) (now now' : Int)
    (hload : s.loading = false)
    (hnew : s.locationKeyRef ≠ some (locationKey L1))
    (hkey : locationKey L1 = locationKey L2) :
    (handleLocationSelect s L1 net now).2 = true ∧
    (handleLocationSelect (handleLocationSelect s L1 net now).1 L2 net' now').2 = false ∧
    (handleLocationSelect (handleLocationSelect s L1 net now).1 L2 net' now').1.selectedLocation
      = some L2 := by
  have hnew2 : s.locationKeyRef ≠ some (locationKey L2) := by
    rw [← hkey]; exact hnew
  refine ⟨?_, ?_, ?_⟩ <;>
    simp [handleLocationSelect, fetchWeatherData, fetchStart, hload, hnew, hnew2, hkey,
      fetchFinish_locationKeyRef]

/-- Witness for C1: `wL1` and `wL1'` are distinct points with equal
4-decimal keys; from the initial state the first selection fetches, the
second does not but still becomes the selected location. -/
theorem select_same_key_one_fetch_witness :
    (handleLocationSelect initialState wL1 wNet 0).2 = true ∧
    (handleLocationSelect (handleLocationSelect initialState wL1 wNet 0).1 wL1' wNet 0).2
      = false ∧
    (handleLocationSelect (handleLocationSelect initialState wL1 wNet 0).1
        wL1' wNet 0).1.selectedLocation = some wL1' :=
  select_same_key_one_fetch initialState wL1 wL1' wNet wNet 0 0 rfl
    (by simp [initialState]) key_wL1_eq_wL1'

/-- C2 (amended): selecting two locations with distinct 4-decimal keys
triggers two fetch cycles when the first cycle has completed before the
second selection; but when the first cycle is still in flight, the
loading guard inside `fetchWeatherData` (part_000 line 114) suppresses the
selection-triggered fetch as well — the in-flight flag DOES block it. -/
theorem select_distinct_keys_two_fetches :
    (∀ (s : WeatherMapState) (L1 L2 : Location) (net net' : NetworkOutcome) (now now' : Int),
        s.loading = false → s.locationKeyRef ≠ some (locationKey L1) →
        locationKey L1 ≠ locationKey L2 →
        (handleLocationSelect s L1 net now).2 = true ∧
        (handleLocationSelect (handleLocationSelect s L1 net now).1 L2 net' now').2 = true) ∧
    (∀ (s : WeatherMapState) (L : Location),
        s.loading = true → (handleLocationSelectStart s L).2 = false) := by
  constructor
  · intro s L1 L2 net net' now now' hload hnew hkeys
    constructor <;>
      simp [handleLocationSelect, fetchWeatherData, fetchStart, hload, hnew, hkeys,
        fetchFinish_locationKeyRef, fetchFinish_loading]
  · intro s L hload
    simp only [handleLocationSelectStart, fetchStart]
    split
    · simp [hload]
    · rfl

/-- Counterexample to C2 as stated: from the initial state, selecting
`wL1` starts a fetch cycle; while that cycle is still resolving, selecting
`wL2` — a location with a distinct dedup key — initiates NO second cycle,
because `fetchWeatherData` returns at its loading guard.  So the pair of
selections triggers one fetch cycle, not two. -/
theorem select_distinct_keys_two_fetches_cex :
    locationKey wL1 ≠ locationKey wL2 ∧
    (handleLocationSelectStart initialState wL1).2 = true ∧
    (handleLocationSelectStart (handleLocationSelectStart initialState wL1).1 wL2).2 = false := by
  refine ⟨key_wL1_ne_wL2, ?_, ?_⟩ <;>
    simp [handleLocationSelectStart, fetchStart, initialState, key_wL1_ne_wL2]

/-- Witness for the amended C2: `wL1` then `wL2` sequentially (first cycle
completed) gives two cycles; and any loading state blocks a new start. -/
theorem select_distinct_keys_two_fetches_witness :
    ((handleLocationSelect initialState wL1 wNet 0).2 = true ∧
      (handleLocationSelect (handleLocationSelect initialState wL1 wNet 0).1 wL2 wNet 0).2
        = true) ∧
    (handleLocationSelectStart { initialState with loading := true } wL1).2 = false :=
  ⟨select_distinct_keys_two_fetches.1 initialState wL1 wL2 wNet wNet 0 0 rfl
      (by simp [initialState]) key_wL1_ne_wL2,
   select_distinct_keys_two_fetches.2 { initialState with loading := true } wL1 rfl⟩

/-- C10: while a fetch cycle is in flight, selecting a location with a new
dedup key updates the stored key without starting the guarded fetch; the
completing cycle does not restore the old key; and any later selection of
a location carrying that same key is deduplicated away — it only updates
the visible selection and never initiates a fetch. -/
theorem select_in_flight_updates_key_then_dedups (s : WeatherMapState) (L : Location)
    (hload : s.loading = true)
    (hnew : s.locationKeyRef ≠ some (locationKey L)) :
    (handleLocationSelectStart s L).1.locationKeyRef = some (locationKey L) ∧
    (handleLocationSelectStart s L).2 = false ∧
    (∀ (s' : WeatherMapState) (net : NetworkOutcome) (now : Int),
        s'.locationKeyRef = some (locationKey L) →
        handleLocationSelect s' L net now =
          ({ s' with currentLocationRef := some L, selectedLocation := some L }, false)) ∧
    (∀ (s' : WeatherMapState) (loc' : Location) (net' : NetworkOutcome) (now' : Int),
        (fetchFinish s' loc' net' now').locationKeyRef = s'.locationKeyRef) := by
  refine ⟨?_, ?_, ?_, fun s' loc' net' now' => fetchFinish_locationKeyRef s' loc' net' now'⟩
  · simp [handleLocationSelectStart, fetchStart, hload, hnew]
  · simp [handleLocationSelectStart, fetchStart, hload, hnew]
  · intro s' net now hkeyref
    simp [handleLocationSelect, hkeyref]

/-- Witness for C10: in-flight state with key of `wL1`; selecting `wL2`
swaps the key in, starts nothing; a later selection of `wL2` under that
key is a pure selection update. -/
theorem select_in_flight_updates_key_then_dedups_witness :
    (handleLocationSelectStart
        { initialState with loading := true, locationKeyRef := some (locationKey wL1) }
        wL2).1.locationKeyRef = some (locationKey wL2) ∧
    (handleLocationSelectStart
        { initialState with loading := true, locationKeyRef := some (locationKey wL1) }
        wL2).2 = false ∧
    (∀ (s' : WeatherMapState) (net : NetworkOutcome) (now : Int),
        s'.locationKeyRef = some (locationKey wL2) →
        handleLocationSelect s' wL2 net now =
          ({ s' with currentLocationRef := some wL2, selectedLocation := some wL2 }, false)) ∧
    (∀ (s' : WeatherMapState) (loc' : Location) (net' : NetworkOutcome) (now' : Int),
        (fetchFinish s' loc' net' now').locationKeyRef = s'.locationKeyRef) :=
  select_in_flight_updates_key_then_dedups
    { initialState with loading := true, locationKeyRef := some (locationKey wL1) } wL2
    rfl (by simpa using key_wL1_ne_wL2)

/-- C3 (amended): a failing current-conditions fetch aborts before any
data write, leaving both WeatherSnapshot and ForecastSeries unchanged; a
failing forecast fetch leaves ForecastSeries unchanged but the
WeatherSnapshot has ALREADY been replaced by the newly fetched current
payload (part_000 line 132 runs before the forecast request); in both
cases `lastError` is set to the fixed user-facing message. -/
theorem fetch_failure_data_and_error (s : WeatherMapState) (loc : Location)
    (net : NetworkOutcome) (now : Int) (hload : s.loading = false) :
    (net.current = none →
        (fetchWeatherData s loc net now).1.weatherData = s.weatherData ∧
        (fetchWeatherData s loc net now).1.forecastData = s.forecastData ∧
        (fetchWeatherData s loc net now).1.error =
          some "Failed to fetch weather data. Please try again later.") ∧
    (∀ w : WeatherData, net.current = some w → net.forecast = none →
        (fetchWeatherData s loc net now).1.weatherData = some w ∧
        (fetchWeatherData s loc net now).1.forecastData = s.forecastData ∧
        (fetchWeatherData s loc net now).1.error =
          some "Failed to fetch weather data. Please try again later.") := by
  rw [fetchWeatherData_not_loading s loc net now hload]
  constructor
  · intro hc
    simp [fetchFinish, hc]
  · intro w hc hf
    simp [fetchFinish, hc, hf]

/-- Witness for the amended C3: a failing current fetch from a state that
already displays `wWeather0`/`wForecast0`, and a failing forecast fetch
after a successful current fetch of `wWeather`. -/
theorem fetch_failure_data_and_error_witness :
    ((fetchWeatherData
          { initialState with weatherData := some wWeather0, forecastData := some wForecast0 }
          wL1 { current := none, forecast := none, oneCall := OneCallOutcome.notOk } 0).1.weatherData =
        some wWeather0 ∧
      (fetchWeatherData
          { initialState with weatherData := some wWeather0, forecastData := some wForecast0 }
          wL1 { current := none, forecast := none, oneCall := OneCallOutcome.notOk } 0).1.forecastData =
        some wForecast0 ∧
      (fetchWeatherData
          { initialState with weatherData := some wWeather0, forecastData := some wForecast0 }
          wL1 { current := none, forecast := none, oneCall := OneCallOutcome.notOk } 0).1.error =
        some "Failed to fetch weather data. Please try again later.") ∧
    ((fetchWeatherData
          { initialState with weatherData := some wWeather0, forecastData := some wForecast0 }
          wL1 { current := some wWeather, forecast := none, oneCall := OneCallOutcome.notOk } 0).1.weatherData =
        some wWeather ∧
      (fetchWeatherData
          { initialState with weatherData := some wWeather0, forecastData := some wForecast0 }
          wL1 { current := some wWeather, forecast := none, oneCall := OneCallOutcome.notOk } 0).1.forecastData =
        some wForecast0 ∧
      (fetchWeatherData
          { initialState with weatherData := some wWeather0, forecastData := some wForecast0 }
          wL1 { current := some wWeather, forecast := none, oneCall := OneCallOutcome.notOk } 0).1.error =
        some "Failed to fetch weather data. Please try again later.") :=
  ⟨(fetch_failure_data_and_error
      { initialState with weatherData := some wWeather0, forecastData := some wForecast0 }
      wL1 { current := none, forecast := none, oneCall := OneCallOutcome.notOk } 0 rfl).1 rfl,
   (fetch_failure_data_and_error
      { initialState with weatherData := some wWeather0, forecastData := some wForecast0 }
      wL1 { current := some wWeather, forecast := none, oneCall := OneCallOutcome.notOk } 0 rfl).2
      wWeather rfl rfl⟩

/-- Counterexample to C3 as stated: a fetch cycle whose forecast call
fails (so the cycle sets the error message) nonetheless overwrites the
previously displayed WeatherSnapshot `wWeather0` with the newly fetched
`wWeather` — the "no partial overwrite on failure" part is false. -/
theorem fetch_failure_data_and_error_cex :
    (fetchWeatherData
        { initialState with weatherData := some wWeather0, forecastData := some wForecast0 }
        wL1 { current := some wWeather, forecast := none, oneCall := OneCallOutcome.notOk } 0).1.error =
      some "Failed to fetch weather data. Please try again later." ∧
    (fetchWeatherData
        { initialState with weatherData := some wWeather0, forecastData := some wForecast0 }
        wL1 { current := some wWeather, forecast := none, oneCall := OneCallOutcome.notOk } 0).1.weatherData ≠
      ({ initialState with weatherData := some wWeather0,
                           forecastData := some wForecast0 } : WeatherMapState).weatherData := by
  constructor
  · rw [fetchWeatherData_not_loading _ _ _ _ rfl]
    simp [fetchFinish]
  · rw [fetchWeatherData_not_loading _ _ _ _ rfl]
    simp [fetchFinish, initialState, wWeather, wWeather0]

/-- C5 (amended): `lastUpdated` is written by a fetch cycle exactly when
the current and forecast calls both succeed AND the alerts request does
not throw.  A non-ok (HTTP-failure) alerts response with successful
current+forecast still stamps `lastUpdated`, stores the absent alerts
value, and sets no error — but a THROWN alerts fetch lands in the outer
catch: `lastUpdated` is not stamped and the error message is set despite
successful current+forecast. -/
theorem lastUpdated_iff_current_and_forecast (s : WeatherMapState) (loc : Location)
    (net : NetworkOutcome) (now : Int) (hload : s.loading = false) :
    ((net.current = none ∨ net.forecast = none) →
        (fetchWeatherData s loc net now).1.lastUpdated = s.lastUpdated) ∧
    (∀ (w : WeatherData) (fd : ForecastData),
        net.current = some w → net.forecast = some fd →
        net.oneCall = OneCallOutcome.thrown →
        (fetchWeatherData s loc net now).1.lastUpdated = s.lastUpdated ∧
        (fetchWeatherData s loc net now).1.error =
          some "Failed to fetch weather data. Please try again later.") ∧
    (∀ (w : WeatherData) (fd : ForecastData),
        net.current = some w → net.forecast = some fd →
        net.oneCall ≠ OneCallOutcome.thrown →
        (fetchWeatherData s loc net now).1.lastUpdated = some now) ∧
    (∀ (w : WeatherData) (fd : ForecastData),
        net.current = some w → net.forecast = some fd → net.oneCall = OneCallOutcome.notOk →
        (fetchWeatherData s loc net now).1.alertsData = none ∧
        (fetchWeatherData s loc net now).1.error = none) := by
  rw [fetchWeatherData_not_loading s loc net now hload]
  refine ⟨?_, ?_, ?_, ?_⟩
  · rintro (hc | hf)
    · simp [fetchFinish, hc]
    · cases hc : net.current <;> simp [fetchFinish, hc, hf]
  · intro w fd hc hf ho
    simp [fetchFinish, hc, hf, ho]
  · intro w fd hc hf ho
    cases hoc : net.oneCall with
    | ok a => simp [fetchFinish, hc, hf, hoc]
    | notOk => simp [fetchFinish, hc, hf, hoc]
    | thrown => exact absurd hoc ho
  · intro w fd hc hf ho
    simp [fetchFinish, hc, hf, ho]

/-- Witness for the amended C5: a failing forecast leaves the stamp; a
thrown alerts fetch after successful current+forecast leaves the stamp
and sets the error; a non-ok alerts response stamps time 42, stores
absent alerts and no error. -/
theorem lastUpdated_iff_current_and_forecast_witness :
    (fetchWeatherData initialState wL1
        { current := some wWeather, forecast := none, oneCall := OneCallOutcome.notOk } 42).1.lastUpdated =
      initialState.lastUpdated ∧
    ((fetchWeatherData initialState wL1
        { current := some wWeather, forecast := some wForecast, oneCall := OneCallOutcome.thrown }
        42).1.lastUpdated = initialState.lastUpdated ∧
      (fetchWeatherData initialState wL1
        { current := some wWeather, forecast := some wForecast, oneCall := OneCallOutcome.thrown }
        42).1.error = some "Failed to fetch weather data. Please try again later.") ∧
    (fetchWeatherData initialState wL1
        { current := some wWeather, forecast := some wForecast, oneCall := OneCallOutcome.notOk }
        42).1.lastUpdated = some 42 ∧
    (fetchWeatherData initialState wL1
        { current := some wWeather, forecast := some wForecast, oneCall := OneCallOutcome.notOk }
        42).1.alertsData = none ∧
    (fetchWeatherData initialState wL1
        { current := some wWeather, forecast := some wForecast, oneCall := OneCallOutcome.notOk }
        42).1.error = none :=
  ⟨(lastUpdated_iff_current_and_forecast initialState wL1
      { current := some wWeather, forecast := none, oneCall := OneCallOutcome.notOk } 42 rfl).1 (Or.inr rfl),
   (lastUpdated_iff_current_and_forecast initialState wL1
      { current := some wWeather, forecast := some wForecast, oneCall := OneCallOutcome.thrown } 42 rfl).2.1
      wWeather wForecast rfl rfl rfl,
   (lastUpdated_iff_current_and_forecast initialState wL1
      { current := some wWeather, forecast := some wForecast, oneCall := OneCallOutcome.notOk } 42 rfl).2.2.1
      wWeather wForecast rfl rfl (by simp),
   ((lastUpdated_iff_current_and_forecast initialState wL1
      { current := some wWeather, forecast := some wForecast, oneCall := OneCallOutcome.notOk } 42 rfl).2.2.2
      wWeather wForecast rfl rfl rfl).1,
   ((lastUpdated_iff_current_and_forecast initialState wL1
      { current := some wWeather, forecast := some wForecast, oneCall := OneCallOutcome.notOk } 42 rfl).2.2.2
      wWeather wForecast rfl rfl rfl).2⟩

/-- Counterexample to C5 as stated: a cycle whose current and forecast
fetches both succeed but whose alerts fetch THROWS (rejected transport or
throwing body parse) does NOT stamp `lastUpdated` — it stays at its
initial `none` — and DOES set the error message; so `lastUpdated` is not
updated "if and only if both current and forecast succeed", and a failing
alerts call does not always leave the cycle successful. -/
theorem lastUpdated_iff_current_and_forecast_cex :
    (fetchWeatherData initialState wL1
        { current := some wWeather, forecast := some wForecast, oneCall := OneCallOutcome.thrown }
        42).1.lastUpdated = none ∧
    (fetchWeatherData initialState wL1
        { current := some wWeather, forecast := some wForecast, oneCall := OneCallOutcome.thrown }
        42).1.error = some "Failed to fetch weather data. Please try again later." := by
  constructor <;>
  · rw [fetchWeatherData_not_loading _ _ _ _ rfl]
    simp [fetchFinish, initialState]

/-- C8 (amended): in a successful cycle, an alerts response whose `alerts`
field is absent yields the ABSENT value (`null`, embedded `none`) — the
very same value the failure path stores (`oneCallData.alerts || null`
turns an absent field into `null`); only an explicitly present array,
possibly empty, is stored as a present AlertSet. -/
theorem alerts_absent_field_maps_to_null (s : WeatherMapState) (loc : Location)
    (net : NetworkOutcome) (now : Int) (w : WeatherData) (fd : ForecastData)
    (hload : s.loading = false) (hc : net.current = some w) (hf : net.forecast = some fd) :
    (net.oneCall = OneCallOutcome.ok none →
        (fetchWeatherData s loc net now).1.alertsData = none) ∧
    (net.oneCall = OneCallOutcome.notOk →
        (fetchWeatherData s loc net now).1.alertsData = none) ∧
    (∀ l : List Alert, net.oneCall = OneCallOutcome.ok (some l) →
        (fetchWeatherData s loc net now).1.alertsData = some l) := by
  rw [fetchWeatherData_not_loading s loc net now hload]
  refine ⟨?_, ?_, ?_⟩
  · intro ho
    simp [fetchFinish, hc, hf, ho, alertsOrNull]
  · intro ho
    simp [fetchFinish, hc, hf, ho]
  · intro l ho
    simp [fetchFinish, hc, hf, ho, alertsOrNull]

/-- Witness for the amended C8: a state that currently displays one alert;
a successful cycle with the alerts field absent, one with the one-call
request failing, and one with an explicitly empty alerts array. -/
theorem alerts_absent_field_maps_to_null_witness :
    (fetchWeatherData { initialState with alertsData := some [wAlert] } wL1
        { current := some wWeather, forecast := some wForecast, oneCall := OneCallOutcome.ok none }
        0).1.alertsData = none ∧
    (fetchWeatherData { initialState with alertsData := some [wAlert] } wL1
        { current := some wWeather, forecast := some wForecast, oneCall := OneCallOutcome.notOk }
        0).1.alertsData = none ∧
    (fetchWeatherData { initialState with alertsData := some [wAlert] } wL1
        { current := some wWeather, forecast := some wForecast, oneCall := OneCallOutcome.ok (some []) }
        0).1.alertsData = some [] :=
  ⟨(alerts_absent_field_maps_to_null { initialState with alertsData := some [wAlert] } wL1
      { current := some wWeather, forecast := some wForecast, oneCall := OneCallOutcome.ok none } 0
      wWeather wForecast rfl rfl rfl).1 rfl,
   (alerts_absent_field_maps_to_null { initialState with alertsData := some [wAlert] } wL1
      { current := some wWeather, forecast := some wForecast, oneCall := OneCallOutcome.notOk } 0
      wWeather wForecast rfl rfl rfl).2.1 rfl,
   (alerts_absent_field_maps_to_null { initialState with alertsData := some [wAlert] } wL1
      { current := some wWeather, forecast := some wForecast, oneCall := OneCallOutcome.ok (some []) } 0
      wWeather wForecast rfl rfl rfl).2.2 [] rfl⟩

/-- Counterexample to C8 as stated: a successful cycle whose alerts field
is absent stores `none`, which is the SAME value the alerts-failure path
stores and is distinct from the empty ("fetched, none active") value
`some []` the claim requires. -/
theorem alerts_absent_field_maps_to_null_cex :
    (fetchWeatherData { initialState with alertsData := some [wAlert] } wL1
        { current := some wWeather, forecast := some wForecast, oneCall := OneCallOutcome.ok none }
        0).1.alertsData = none ∧
    (fetchWeatherData { initialState with alertsData := some [wAlert] } wL1
        { current := some wWeather, forecast := some wForecast, oneCall := OneCallOutcome.notOk }
        0).1.alertsData = none ∧
    (none : Option (List Alert)) ≠ some [] := by
  refine ⟨?_, ?_, by simp⟩ <;>
  · rw [fetchWeatherData_not_loading _ _ _ _ rfl]
    simp [fetchFinish, alertsOrNull]

/-- C6: `handleRefresh` with no stored location is a no-op — the state is
unchanged and no fetch cycle is issued; with a stored location and no
cycle in flight it always initiates a fetch cycle, with no dedup-key
check anywhere on its path (the second part holds for every state,
including those whose stored key equals the stored location's key). -/
theorem manualRefresh_noop_or_fetch :
    (∀ (s : WeatherMapState) (net : NetworkOutcome) (now : Int),
        s.currentLocationRef = none → handleRefresh s net now = (s, false)) ∧
    (∀ (s : WeatherMapState) (loc : Location) (net : NetworkOutcome) (now : Int),
        s.currentLocationRef = some loc → s.loading = false →
        (handleRefresh s net now).2 = true) := by
  constructor
  · intro s net now h
    simp [handleRefresh, h]
  · intro s loc net now h hload
    simp [handleRefresh, h, fetchWeatherData, fetchStart, hload]

/-- Witness for C6: the initial state has no stored location; a state
whose stored dedup key MATCHES the stored location's key still fetches. -/
theorem manualRefresh_noop_or_fetch_witness :
    handleRefresh initialState wNet 0 = (initialState, false) ∧
    (handleRefresh
        { initialState with currentLocationRef := some wL1,
                            locationKeyRef := some (locationKey wL1) }
        wNet 0).2 = true :=
  ⟨manualRefresh_noop_or_fetch.1 initialState wNet 0 rfl,
   manualRefresh_noop_or_fetch.2
      { initialState with currentLocationRef := some wL1,
                          locationKeyRef := some (locationKey wL1) }
      wL1 wNet 0 rfl rfl⟩

/-- C7: a search that geocodes to zero candidates sets the fixed "please
try another search" message and issues no fetch cycle; a search with at
least one candidate builds a `Location` from the first candidate, naming
it by the first comma-delimited segment of its `display_name`, records it
as the searched location, and hands it to the same dedup path as a map
click: a fetch cycle is triggered exactly when the candidate's 4-decimal
key differs from the stored key. -/
theorem search_zero_results_or_select (s : WeatherMapState)
    (r : GeoResult) (rest : List GeoResult) (net : NetworkOutcome) (now : Int)
    (hload : s.loading = false) :
    ((handleSearch s (some []) net now).1.searchError =
        some "Location not found. Please try another search." ∧
      (handleSearch s (some []) net now).2 = false) ∧
    ((handleSearch s (some (r :: rest)) net now).1.searchedLocation =
        some { lat := r.lat, lng := r.lon,
               name := some (List.headD (r.display_name.splitOn ",") "") } ∧
      ((handleSearch s (some (r :: rest)) net now).2 = true ↔
        s.locationKeyRef ≠ some (locationKey
          { lat := r.lat, lng := r.lon,
            name := some (List.headD (r.display_name.splitOn ",") "") }))) := by
  refine ⟨⟨by simp [handleSearch], by simp [handleSearch]⟩, ?_, ?_⟩ <;>
  · by_cases hkey : s.locationKeyRef = some (toFixed4 r.lat, toFixed4 r.lon) <;>
      simp [handleSearch, handleLocationSelect, fetchWeatherData, fetchStart, locationKey,
        hload, hkey, fetchFinish_searchedLocation]

/-- Witness for C7: an empty geocoder response from the initial state, and
the single candidate (481/10, 2, "Paris, France"), whose location is named
"Paris" and fetched since the initial key is empty. -/
theorem search_zero_results_or_select_witness :
    ((handleSearch initialState (some []) wNet 0).1.searchError =
        some "Location not found. Please try another search." ∧
      (handleSearch initialState (some []) wNet 0).2 = false) ∧
    ((handleSearch initialState
          (some [{ lat := 481 / 10, lon := 2, display_name := "Paris, France" }])
          wNet 0).1.searchedLocation =
        some { lat := 481 / 10, lng := 2,
               name := some (List.headD (String.splitOn "Paris, France" ",") "") } ∧
      ((handleSearch initialState
            (some [{ lat := 481 / 10, lon := 2, display_name := "Paris, France" }])
            wNet 0).2 = true ↔
        initialState.locationKeyRef ≠ some (locationKey
          { lat := 481 / 10, lng := 2,
            name := some (List.headD (String.splitOn "Paris, France" ",") "") }))) :=
  search_zero_results_or_select initialState
    { lat := 481 / 10, lon := 2, display_name := "Paris, France" } [] wNet 0 rfl

/-- C9 (amended): after a cycle in which current and forecast both
succeed AND the alerts request does not throw, the stored selected
location gets its display name replaced by the name of the
current-conditions payload exactly when its coordinates still equal the
fetched location's coordinates — keeping `lat`/`lng` untouched — and is
left entirely unchanged when the coordinates differ.  When the alerts
fetch THROWS, execution jumps to the outer catch before the
reconciliation (part_000 lines 162-170 never run), so the selected
location is left unchanged even when the coordinates match. -/
theorem reconcile_name_only_on_match (s : WeatherMapState) (loc : Location)
    (net : NetworkOutcome) (now : Int) (w : WeatherData) (fd : ForecastData)
    (prev : Location) (hload : s.loading = false)
    (hc : net.current = some w) (hf : net.forecast = some fd)
    (hprev : s.selectedLocation = some prev) :
    (net.oneCall ≠ OneCallOutcome.thrown →
        prev.lat = loc.lat ∧ prev.lng = loc.lng →
        (fetchWeatherData s loc net now).1.selectedLocation =
          some { lat := prev.lat, lng := prev.lng, name := some w.name }) ∧
    (¬(prev.lat = loc.lat ∧ prev.lng = loc.lng) →
        (fetchWeatherData s loc net now).1.selectedLocation = some prev) ∧
    (net.oneCall = OneCallOutcome.thrown →
        (fetchWeatherData s loc net now).1.selectedLocation = some prev) := by
  rw [fetchWeatherData_not_loading s loc net now hload]
  refine ⟨?_, ?_, ?_⟩
  · intro hnt hmatch
    cases ho : net.oneCall with
    | ok a => simp [fetchFinish, hc, hf, ho, hprev, hmatch.1, hmatch.2]
    | notOk => simp [fetchFinish, hc, hf, ho, hprev, hmatch.1, hmatch.2]
    | thrown => exact absurd ho hnt
  · intro hmatch
    cases ho : net.oneCall <;> simp [fetchFinish, hc, hf, ho, hprev, hmatch]
  · intro ho
    simp [fetchFinish, hc, hf, ho, hprev]

/-- Witness for the amended C9: a matching previous selection `wL1` gets
the name "Paris" with coordinates kept when the alerts request does not
throw; a non-matching previous selection `wL2` survives a fetch for `wL1`
untouched; a thrown alerts fetch leaves even a matching selection
unchanged. -/
theorem reconcile_name_only_on_match_witness :
    (fetchWeatherData { initialState with selectedLocation := some wL1 } wL1
        wNet 0).1.selectedLocation =
      some { lat := wL1.lat, lng := wL1.lng, name := some wWeather.name } ∧
    (fetchWeatherData { initialState with selectedLocation := some wL2 } wL1
        wNet 0).1.selectedLocation = some wL2 ∧
    (fetchWeatherData { initialState with selectedLocation := some wL1 } wL1
        { current := some wWeather, forecast := some wForecast,
          oneCall := OneCallOutcome.thrown } 0).1.selectedLocation = some wL1 :=
  ⟨(reconcile_name_only_on_match { initialState with selectedLocation := some wL1 } wL1
      wNet 0 wWeather wForecast wL1 rfl rfl rfl rfl).1 (by simp [wNet]) ⟨rfl, rfl⟩,
   ((reconcile_name_only_on_match { initialState with selectedLocation := some wL2 } wL1
      wNet 0 wWeather wForecast wL2 rfl rfl rfl rfl).2.1
      (by simp [wL1, wL2])),
   ((reconcile_name_only_on_match { initialState with selectedLocation := some wL1 } wL1
      { current := some wWeather, forecast := some wForecast,
        oneCall := OneCallOutcome.thrown } 0 wWeather wForecast wL1 rfl rfl rfl rfl).2.2
      rfl)⟩

/-- Counterexample to C9 as stated: a cycle for `wL1` in which current and
forecast both succeed while the alerts fetch throws; the selected
location's coordinates equal `wL1`'s, yet its display name is NOT
replaced by the payload's name "Paris" — the selection keeps its original
(empty) name because the reconciliation step never runs. -/
theorem reconcile_name_only_on_match_cex :
    (fetchWeatherData { initialState with selectedLocation := some wL1 } wL1
        { current := some wWeather, forecast := some wForecast,
          oneCall := OneCallOutcome.thrown } 0).1.selectedLocation = some wL1 ∧
    wL1.name ≠ some wWeather.name := by
  constructor
  · rw [fetchWeatherData_not_loading _ _ _ _ rfl]
    simp [fetchFinish]
  · simp [wL1, wWeather]
